import Mathlib

/-
Verification of the keithley2400_mpp measurement/control core.

The definitions below are a shallow embedding of the Python source:
  - keithley2400_mpp/keithley2400_procedure.py (buffer formatter, timing base,
    cooperative wait),
  - keithley2400_mpp/voc.py (Voc settling detector),
  - keithley2400_mpp/jv.py (JV sweep controller),
  - keithley2400_mpp/mpp_tracking.py (perturb-and-observe engine),
  - main.py (run orchestrator).
Numeric scalars are modelled as exact rationals; instrument interactions are
modelled by explicit inputs (acquired buffers, poll-slice stop observations,
per-operation results).  The second source tree, keithley_2400_mpp, is dead
code: both of its modules fail at import time (an undefined base-class name
and a missing import), so the keithley2400_mpp package is the executable
program embedded here.
-/

namespace Keithley2400MPP

/-- Arithmetic mean of a list of rationals, as numpy mean over an axis:
sum divided by length (the empty case never arises in the program; in ℚ
division by zero yields 0). -/
def listMean (l : List ℚ) : ℚ := l.sum / l.length

/-! ## Sample buffer formatter: Keithley2400_Procedure.format_data -/

/-- Row-splitting step of numpy reshape: cut a flat list into consecutive
rows of `cols` entries each (row-major order, as numpy reshape). -/
def chunk_rows (cols : Nat) (data : List ℚ) : List (List ℚ) :=
  if h : cols = 0 ∨ data = [] then []
  else data.take cols :: chunk_rows cols (data.drop cols)
termination_by data.length
decreasing_by
  simp only [not_or] at h
  have h1 : 0 < cols := Nat.pos_of_ne_zero h.1
  have h2 : 0 < data.length := List.length_pos.mpr h.2
  simp [List.length_drop]
  omega

/-- Embedding of `Keithley2400_Procedure.format_data` (keithley2400_procedure.py,
lines 109-139), numeric core: `cols = len(self.elements)`, `rows = len(data)/cols`;
raises ValueError when `rows` is not an integer, otherwise reshapes to
`rows x cols`.  `cols = 0` would raise ZeroDivisionError in Python.
The string-splitting and numpy-conversion preamble is omitted: the input is
already a numeric sequence. -/
def format_data (cols : Nat) (data : List ℚ) : Except String (List (List ℚ)) :=
  if cols = 0 then
    Except.error "ZeroDivisionError"
  else if data.length % cols = 0 then
    Except.ok (chunk_rows cols data)
  else
    Except.error "Invalid data length. Data is not divisible by number of elements."

theorem chunk_rows_flatten (cols : Nat) (hc : cols ≠ 0) :
    ∀ data : List ℚ, (chunk_rows cols data).flatten = data := by
  intro data
  induction data using chunk_rows.induct cols with
  | case1 data h =>
    rcases h with h | h
    · exact absurd h hc
    · subst h
      rw [chunk_rows]
      simp
  | case2 data h ih =>
    rw [chunk_rows, dif_neg h]
    simp [ih]

theorem chunk_rows_length (cols : Nat) (hc : cols ≠ 0) :
    ∀ (k : Nat) (data : List ℚ), data.length = k * cols →
      (chunk_rows cols data).length = k := by
  intro k
  induction k with
  | zero =>
    intro data hlen
    simp at hlen
    subst hlen
    rw [chunk_rows]
    simp
  | succ n ih =>
    intro data hlen
    have hpos : 0 < data.length := by
      rw [hlen]
      have := Nat.pos_of_ne_zero hc
      positivity
    have hne : data ≠ [] := by
      intro h
      rw [h] at hpos
      simp at hpos
    rw [chunk_rows, dif_neg (by simp [hc, hne])]
    have hdrop : (data.drop cols).length = n * cols := by
      simp [List.length_drop, hlen, Nat.succ_mul]
    simp [ih (data.drop cols) hdrop]

/-- Claim C3: for every flat numeric sequence whose length is k × cols
(cols = number of measurement elements, positive for a configured procedure),
format_data returns a k-row array whose row-major flattening reproduces the
input; for every length not divisible by cols it raises the data-integrity
ValueError and never silently truncates. -/
theorem format_data_reshape (cols k : Nat) (data : List ℚ) (hc : 0 < cols) :
    (data.length = k * cols →
      format_data cols data = Except.ok (chunk_rows cols data) ∧
      (chunk_rows cols data).length = k ∧
      (chunk_rows cols data).flatten = data) ∧
    (data.length % cols ≠ 0 →
      format_data cols data =
        Except.error "Invalid data length. Data is not divisible by number of elements.") := by
  have hc0 : cols ≠ 0 := Nat.pos_iff_ne_zero.mp hc
  constructor
  · intro hlen
    refine ⟨?_, chunk_rows_length cols hc0 k data hlen, chunk_rows_flatten cols hc0 data⟩
    rw [format_data, if_neg hc0, if_pos]
    rw [hlen]
    simp
  · intro hmod
    rw [format_data, if_neg hc0, if_neg hmod]

/-- Witness for C3: the divisible case at cols = 2, data = [1,2,3,4]
(two rows, flattening restored) and the non-divisible case at [1,2,3]. -/
theorem format_data_reshape_witness :
    (format_data 2 [1, 2, 3, 4] = Except.ok (chunk_rows 2 [1, 2, 3, 4]) ∧
      (chunk_rows 2 [(1:ℚ), 2, 3, 4]).length = 2 ∧
      (chunk_rows 2 [(1:ℚ), 2, 3, 4]).flatten = [1, 2, 3, 4]) ∧
    format_data 2 [1, 2, 3] =
      Except.error "Invalid data length. Data is not divisible by number of elements." :=
  ⟨(format_data_reshape 2 2 [1, 2, 3, 4] (by decide)).1 (by decide),
   (format_data_reshape 2 0 [1, 2, 3] (by decide)).2 (by decide)⟩

/-! ## JV sweep controller: JVScan_Procedure.startup step normalization -/

/-- Embedding of the step-sign normalization in `JVScan_Procedure.startup`
(jv.py, lines 74-79): the programmed step is negated exactly when
`(start > end and step > 0) or (start < end and step < 0)`. -/
def voltage_step_effective (start_voltage end_voltage voltage_step : ℚ) : ℚ :=
  if (end_voltage < start_voltage ∧ 0 < voltage_step) ∨
     (start_voltage < end_voltage ∧ voltage_step < 0) then
    -voltage_step
  else
    voltage_step

/-- Claim C6: for every (start, end, step) with step ≠ 0 and start ≠ end,
the effective step programmed by the JV controller has the sign of
end − start: it is positive exactly when end > start and negative exactly
when end < start. -/
theorem voltage_step_effective_sign (s e st : ℚ) (hst : st ≠ 0) (hse : s ≠ e) :
    (0 < voltage_step_effective s e st ↔ 0 < e - s) ∧
    (voltage_step_effective s e st < 0 ↔ e - s < 0) := by
  rcases lt_or_gt_of_ne hse with hlt | hgt
  · rcases lt_or_gt_of_ne hst with hneg | hpos
    · rw [voltage_step_effective, if_pos (Or.inr ⟨hlt, hneg⟩)]
      constructor <;> constructor <;> intro h <;> linarith
    · rw [voltage_step_effective, if_neg]
      · constructor <;> constructor <;> intro h <;> linarith
      · rintro (⟨h1, _⟩ | ⟨_, h2⟩) <;> linarith
  · rcases lt_or_gt_of_ne hst with hneg | hpos
    · rw [voltage_step_effective, if_neg]
      · constructor <;> constructor <;> intro h <;> linarith
      · rintro (⟨_, h1⟩ | ⟨h2, _⟩) <;> linarith
    · rw [voltage_step_effective, if_pos (Or.inl ⟨hgt, hpos⟩)]
      constructor <;> constructor <;> intro h <;> linarith

/-- Witness for C6: sweeping from 1 V down to 0 V with a caller-supplied
positive step 0.01 V yields a negative effective step. -/
theorem voltage_step_effective_sign_witness :
    voltage_step_effective 1 0 (1 / 100) < 0 :=
  (voltage_step_effective_sign 1 0 (1 / 100) (by norm_num) (by norm_num)).2.mpr
    (by norm_num)

/-! ## Run orchestrator: main.py Voc → JV end-voltage rounding -/

/-- Embedding of the end-voltage rounding in `main` (main.py, lines 105-108):
`end_voc = voc_measured / voltage_step`, then `ceil` when positive else
`floor`, then multiplied back by the step. -/
def end_voc (voc_measured voltage_step : ℚ) : ℚ :=
  ((if 0 < voc_measured / voltage_step then
      Int.ceil (voc_measured / voltage_step)
    else
      Int.floor (voc_measured / voltage_step) : ℤ) : ℚ) * voltage_step

/-- Counterexample to C9 as stated: over exact rational arithmetic,
a measured Voc of 0.62 V with step 0.01 V gives end_voltage 0.62 V,
not 0.63 V — 0.62 is already an exact multiple of the step and ceil leaves
the integer 62 unchanged. -/
theorem end_voc_062_ne_063 : end_voc (62 / 100) (1 / 100) ≠ 63 / 100 := by
  have hq : (62 : ℚ) / 100 / (1 / 100) = ((62 : ℤ) : ℚ) := by norm_num
  rw [end_voc, hq, if_pos (by norm_num : (0 : ℚ) < ((62 : ℤ) : ℚ)), Int.ceil_intCast]
  norm_num

/-- Claim C9 (amended): over exact rational arithmetic the orchestrator's
rounding end_voc = ceil(voc / step) × step maps Voc 0.62 V with step 0.01 V
to 0.62 V: an exact multiple of the step is a fixed point of the outward
rounding. -/
theorem end_voc_062 : end_voc (62 / 100) (1 / 100) = 62 / 100 := by
  have hq : (62 : ℚ) / 100 / (1 / 100) = ((62 : ℤ) : ℚ) := by norm_num
  rw [end_voc, hq, if_pos (by norm_num : (0 : ℚ) < ((62 : ℤ) : ℚ)), Int.ceil_intCast]
  norm_num

/-! ## MPP perturb-and-observe engine: decision step (C1) and power summary (C2) -/

/-- Python tail slice `p[-n:]` for 0 ≤ n ≤ len p: the last n elements when
n ≥ 1, but the WHOLE list when n = 0 (in Python, -0 is 0, so `p[-0:]` is
`p[0:]`). -/
def pyTailSlice (n : Nat) (l : List ℚ) : List ℚ :=
  if n = 0 then l else l.drop (l.length - n)

/-- Embedding of `MPPTracking_Procedure._better_voltage` (mpp_tracking.py,
lines 261-293).  d1 = (v1, p1) is the baseline series, d2 = (v2, p2) the
probe series; `num_points = min(probe_points, len(p1), len(p2))`;
`m1 = sum(p1[-num_points:])`, `m2 = sum(p2[-num_points:])`; both are negated
when power_production_mode is false; returns v1 when m1 > m2, else v2. -/
def better_voltage (probe_points : Nat) (production : Bool)
    (v1 : ℚ) (p1 : List ℚ) (v2 : ℚ) (p2 : List ℚ) : ℚ :=
  let num_points := min probe_points (min p1.length p2.length)
  let s1 := (pyTailSlice num_points p1).sum
  let s2 := (pyTailSlice num_points p2).sum
  let m1 := if production then s1 else -s1
  let m2 := if production then s2 else -s2
  if m2 < m1 then v1 else v2

/-- Embedding of the decision step of `MPPTracking_Procedure.execute`
(mpp_tracking.py, lines 173-187): compute better_voltage; if it equals the
baseline voltage, revert the setpoint to the baseline voltage and multiply
probe_direction by -1; otherwise stay at the probe voltage and keep the
direction.  Returns (new setpoint, new probe_direction). -/
def mpp_decide (probe_points : Nat) (production : Bool) (dir : ℤ)
    (v1 : ℚ) (p1 : List ℚ) (v2 : ℚ) (p2 : List ℚ) : ℚ × ℤ :=
  let better := better_voltage probe_points production v1 p1 v2 p2
  if better = v1 then (v1, -dir) else (better, dir)

/-- The comparator named by the claim: the sum of the LAST n elements of the
series, negated when power_production_mode is false. -/
def adjusted_tail_sum (production : Bool) (n : Nat) (p : List ℚ) : ℚ :=
  let s := (p.drop (p.length - n)).sum
  if production then s else -s

/-- Counterexample to C1 as stated: with probe_points = 3, consumption mode,
baseline series p1 = [] at v1 = 0 and probe series p2 = [1] at v2 = 1, the
comparison width min(3, 0, 1) is 0, so the claim's comparators (sums of the
last 0 elements) are both 0 and the claim requires the probe voltage 1 to be
selected; the code's Python slice `p[-0:]` is the whole list, so it compares
0 against -1 and returns the baseline voltage 0. -/
theorem better_voltage_empty_baseline :
    better_voltage 3 false 0 [] 1 [1] = 0 ∧
    adjusted_tail_sum false 0 [] = 0 ∧
    adjusted_tail_sum false 0 [1] = 0 ∧
    (0 : ℚ) ≠ 1 := by
  refine ⟨?_, ?_, ?_, by norm_num⟩ <;>
    norm_num [better_voltage, adjusted_tail_sum, pyTailSlice]

/-- Claim C1 (amended): whenever the comparison width
n = min(probe_points, |p1|, |p2|) is at least 1 and the baseline and probe
voltages differ (as they do in the loop whenever probe_step ≠ 0), the
decision step selects the probe voltage v2 iff the probe comparator is ≥ the
baseline comparator (an exact tie selects the probe), and the control loop
flips probe_direction (multiplies the nonzero direction by -1) iff the
baseline voltage was selected; the comparators are the sums of the last n
elements of each series, negated when power_production_mode is false.  When
n = 0 the code instead sums the whole series, since the Python slice p[-0:]
denotes the entire list. -/
theorem better_voltage_decision (probe_points : Nat) (production : Bool)
    (dir : ℤ) (v1 v2 : ℚ) (p1 p2 : List ℚ) (n : Nat)
    (hne : n = min probe_points (min p1.length p2.length))
    (hn : 1 ≤ n) (hv : v1 ≠ v2) (hd : dir ≠ 0) :
    (better_voltage probe_points production v1 p1 v2 p2 = v2 ↔
      adjusted_tail_sum production n p1 ≤ adjusted_tail_sum production n p2) ∧
    ((mpp_decide probe_points production dir v1 p1 v2 p2).2 = -dir ↔
      adjusted_tail_sum production n p2 < adjusted_tail_sum production n p1) := by
  have hn0 : n ≠ 0 := by omega
  have hbv : better_voltage probe_points production v1 p1 v2 p2 =
      if adjusted_tail_sum production n p2 < adjusted_tail_sum production n p1
      then v1 else v2 := by
    rw [better_voltage, adjusted_tail_sum, adjusted_tail_sum, pyTailSlice,
      pyTailSlice, ← hne]
    simp only [if_neg hn0]
  constructor
  · rw [hbv]
    by_cases h : adjusted_tail_sum production n p2 < adjusted_tail_sum production n p1
    · rw [if_pos h]
      simp [hv, not_le.mpr h]
    · rw [if_neg h]
      simp [not_lt.mp h]
  · rw [mpp_decide, hbv]
    by_cases h : adjusted_tail_sum production n p2 < adjusted_tail_sum production n p1
    · rw [if_pos h]
      simp [h]
    · rw [if_neg h]
      have : v2 ≠ v1 := fun hh => hv hh.symm
      rw [if_neg this]
      simp only [h, iff_false]
      intro hdir
      omega

/-- Witness for C1: probe_points = 3, consumption mode, baseline powers
[-5, -4] at 0 V, probe powers [-1, -2] at 0.01 V, direction +1: comparison
width is 2, probe comparator 3 ≥ baseline comparator 9 is false, so the
baseline is selected and the direction flips to -1. -/
theorem better_voltage_decision_witness :
    (better_voltage 3 false 0 [-5, -4] (1 / 100) [-1, -2] = 1 / 100 ↔
      adjusted_tail_sum false 2 [-5, -4] ≤ adjusted_tail_sum false 2 [-1, -2]) ∧
    ((mpp_decide 3 false 1 0 [-5, -4] (1 / 100) [-1, -2]).2 = -1 ↔
      adjusted_tail_sum false 2 [-1, -2] < adjusted_tail_sum false 2 [-5, -4]) :=
  better_voltage_decision 3 false 1 0 (1 / 100) [-5, -4] [-1, -2] 2
    (by decide) (by decide) (by norm_num) (by decide)

/-- Embedding of the power summary in `MPPTracking_Procedure._measure_datum`
(mpp_tracking.py, line 316): `power = data.prod( axis = 1 ).mean()` — the
mean over rows of the product of ALL columns of the row.  The acquired rows
have the element layout [TIME, VOLT, CURR] set by startup (line 151). -/
def measure_datum_power (rows : List (List ℚ)) : ℚ :=
  listMean (rows.map List.prod)

/-- The power summary named by the claim: the mean over rows of the per-row
product voltage × current, reading the voltage and current columns at the
given indices (VOLT = 1, CURR = 2 in the [TIME, VOLT, CURR] layout). -/
def claim_window_power (vIdx cIdx : Nat) (rows : List (List ℚ)) : ℚ :=
  listMean (rows.map fun r => r.getD vIdx 0 * r.getD cIdx 0)

/-- Claim C2 fails on the code: for the single acquired row
[time = 2, voltage = 3, current = 5] the code's summary multiplies the TIME
column in and reports 2 × 3 × 5 = 30 W, while the mean of per-row
voltage × current products is 15 W. -/
theorem measure_datum_power_includes_time :
    measure_datum_power [[2, 3, 5]] = 30 ∧
    claim_window_power 1 2 [[2, 3, 5]] = 15 ∧
    (30 : ℚ) ≠ 15 := by
  refine ⟨?_, ?_, by norm_num⟩ <;>
    norm_num [measure_datum_power, claim_window_power, listMean]

/-! ## Procedure timing base: accessors before startup/execute (C10) -/

/-- State of the lazily-initialized instance fields of a procedure:
`none` models a Python attribute that has not been set yet
(`__instrument`, `__elements`, `_start_time`, `_end_time`), whose property
accessors catch AttributeError and return None. -/
structure ProcState where
  instrument : Option Unit
  elements : Option (List String)
  start_time : Option ℚ
  end_time : Option ℚ

/-- A procedure instance on which startup() and execute() have not been
called: none of the lazily-initialized attributes exist. -/
def fresh_procedure : ProcState := ⟨none, none, none, none⟩

/-- Embedding of `MPPTracking_Procedure.time_elapsed` (mpp_tracking.py,
lines 106-118): 0 before execute, otherwise now − start_time. -/
def time_elapsed (now : ℚ) (s : ProcState) : ℚ :=
  match s.start_time with
  | none => 0
  | some t => now - t

/-- Embedding of `MPPTracking_Procedure.progress` (mpp_tracking.py,
lines 121-135): 0 before execute, otherwise elapsed over the run-time
budget in seconds, capped at 1. -/
def progress (now run_time : ℚ) (s : ProcState) : ℚ :=
  match s.start_time with
  | none => 0
  | some t => min ((now - t) / (run_time * 60)) 1

/-- Embedding of `Keithley2400_Procedure.shutdown` (keithley2400_procedure.py,
lines 93-99): `if self.instrument: self.instrument.shutdown()`.  Returns
whether an instrument operation was attempted; the function itself always
returns normally. -/
def shutdown_invokes_instrument (s : ProcState) : Bool :=
  match s.instrument with
  | none => false
  | some _ => true

/-- Claim C10: on a procedure instance on which startup() and execute() have
not been called, the accessors instrument, elements, start_time and end_time
return None, time_elapsed and progress return 0 for any clock reading and
run-time budget, and shutdown performs no instrument operation. -/
theorem fresh_procedure_accessors (now run_time : ℚ) :
    fresh_procedure.instrument = none ∧
    fresh_procedure.elements = none ∧
    fresh_procedure.start_time = none ∧
    fresh_procedure.end_time = none ∧
    time_elapsed now fresh_procedure = 0 ∧
    progress now run_time fresh_procedure = 0 ∧
    shutdown_invokes_instrument fresh_procedure = false :=
  ⟨rfl, rfl, rfl, rfl, rfl, rfl, rfl⟩

/-! ## Voc settling detector: Voc_Procedure.execute window and settling (C4, C5) -/

/-- Python prefix slice `l[:-K]`: for K ≥ 1 the first len − K elements; for
K = 0 the empty list (in Python -0 is 0, so `l[:-0]` is `l[:0]`). -/
def pyDropLast (K : Nat) (l : List ℚ) : List ℚ :=
  if K = 0 then [] else l.take (l.length - K)

/-- One acquisition tick of the window maintenance in `Voc_Procedure.execute`
(voc.py, lines 144-148): append the new summarized sample, then, when the
window exceeds threshold_points, prune it with the slice
`data[ : -self.threshold_points ]`. -/
def voc_window_tick (K : Nat) (w : List ℚ) (v : ℚ) : List ℚ :=
  let w2 := w ++ [v]
  if K < w2.length then pyDropLast K w2 else w2

/-- Population variance of a list: the mean of squared deviations from the
mean.  numpy `.std()` is its square root, so the check std ≤ thr is
equivalent to variance ≤ thr² for thr ≥ 0. -/
def popVariance (l : List ℚ) : ℚ :=
  listMean (l.map fun x => (x - listMean l) ^ 2)

/-- Number of parameters of `Voc_Procedure._extract_voltage` (voc.py,
lines 225-231): the method is declared with parameters (self, data). -/
def extract_voltage_params : Nat := 2

/-- Number of arguments the call site `self._extract_voltage( data )` in
`Voc_Procedure._settled` (voc.py, line 220) supplies: because
_extract_voltage is a @staticmethod, the bound name is the plain function
and the call passes the single argument data. -/
def extract_voltage_args_at_call : Nat := 1

/-- Embedding of `Voc_Procedure._settled` (voc.py, lines 213-222): it calls
the under-applied staticmethod, so Python raises TypeError before any
comparison happens; the intended check — standard deviation of the window
voltages at or below std_threshold — sits in the unreachable branch. -/
def voc_settled (std_threshold : ℚ) (w : List ℚ) : Except String Bool :=
  if extract_voltage_args_at_call = extract_voltage_params then
    Except.ok (decide (popVariance w ≤ std_threshold ^ 2))
  else
    Except.error "TypeError: _extract_voltage missing 1 required positional argument"

/-- Terminal outcome of a Voc run: the claim's Settled and TimedOut states,
plus a crash carrying an uncaught Python exception. -/
inductive VocOutcome where
  | settled
  | timedOut
  | crashed (msg : String)
deriving DecidableEq

/-- Embedding of the loop of `Voc_Procedure.execute` (voc.py, lines 136-158)
over the finite list of summarized voltage samples the run can acquire
before elapsed time reaches max_time (exhausting the list is the
progress = 1 exit, i.e. TimedOut).  Each tick appends and prunes the window,
then, once the window holds at least threshold_points samples, consults
_settled. -/
def voc_execute_loop (K : Nat) (thr : ℚ) : List ℚ → List ℚ → VocOutcome
  | [], _ => VocOutcome.timedOut
  | v :: rest, w =>
    let w2 := voc_window_tick K w v
    if K ≤ w2.length then
      match voc_settled thr w2 with
      | Except.error e => VocOutcome.crashed e
      | Except.ok true => VocOutcome.settled
      | Except.ok false => voc_execute_loop K thr rest w2
    else
      voc_execute_loop K thr rest w2

/-- A Voc run starting from the empty window. -/
def voc_execute (K : Nat) (thr : ℚ) (samples : List ℚ) : VocOutcome :=
  voc_execute_loop K thr samples []

/-- Claim C4 fails on the code: with threshold_points = 1 and
std_threshold = 1 the very first sample 0.5 V forms a window whose standard
deviation is 0, at or below the threshold, so the claim requires the
Settled state; the code instead crashes with TypeError, because _settled
invokes the staticmethod _extract_voltage — declared (self, data) — with a
single argument. -/
theorem voc_execute_crashes :
    voc_execute 1 1 [1 / 2] =
      VocOutcome.crashed
        "TypeError: _extract_voltage missing 1 required positional argument" ∧
    popVariance [1 / 2] ≤ 1 ^ 2 := by
  constructor
  · rfl
  · norm_num [popVariance, listMean]

/-- Claim C5 fails on the code: with threshold_points = 2 and acquired
samples 1, 2, 3, the third tick prunes the window with data[:-2], keeping
[1] — the OLDEST sample — while the claim requires the two most recent
samples [2, 3]. -/
theorem voc_window_keeps_oldest :
    List.foldl (voc_window_tick 2) [] [1, 2, 3] = [(1 : ℚ)] ∧
    [(1 : ℚ)] ≠ [2, 3] := by
  constructor
  · rfl
  · simp

/-! ## Buffer-acquisition error handling: Voc_Procedure._get_data (C7) -/

/-- Results of the instrument interactions one buffer acquisition performs:
the outcome of config_buffer, start_buffer and wait_for_buffer, and the
value a subsequent buffer_data read yields. -/
structure BufferAcq where
  config_buffer : Except String Unit
  start_buffer : Except String Unit
  wait_for_buffer : Except String Unit
  buffer_data : List ℚ

/-- What a call to _get_data does: whether shutdown was invoked, and what
the call returns to the measurement phase (an error value models an
uncaught exception propagating to the caller). -/
structure GetDataOutcome where
  shutdown_invoked : Bool
  returned : Except String (List ℚ)

/-- Embedding of `Voc_Procedure._get_data` (voc.py, lines 194-210): the
three buffer operations run inside try/except; on the first failure the
handler logs and calls shutdown, and control then FALLS THROUGH to the
buffer_data read and the return — the exception is not re-raised. -/
def voc_get_data (ops : BufferAcq) : GetDataOutcome :=
  match ops.config_buffer with
  | Except.error _ => ⟨true, Except.ok ops.buffer_data⟩
  | Except.ok _ =>
    match ops.start_buffer with
    | Except.error _ => ⟨true, Except.ok ops.buffer_data⟩
    | Except.ok _ =>
      match ops.wait_for_buffer with
      | Except.error _ => ⟨true, Except.ok ops.buffer_data⟩
      | Except.ok _ => ⟨false, Except.ok ops.buffer_data⟩

/-- Claim C7 fails on the code: whatever the three buffer operations do,
Voc_Procedure._get_data returns the buffer read normally — a
buffer-acquisition failure never propagates to the caller of the
measurement phase: the handler catches it, shuts the instrument down, and
the run continues with whatever the subsequent buffer read yields. -/
theorem voc_get_data_never_propagates
    (cfg st wt : Except String Unit) (buf : List ℚ) :
    (voc_get_data ⟨cfg, st, wt, buf⟩).returned = Except.ok buf ∧
    (voc_get_data ⟨Except.error "VisaIOError timeout", st, wt, buf⟩).shutdown_invoked
      = true := by
  cases cfg <;> cases st <;> cases wt <;> exact ⟨rfl, rfl⟩

/-! ## Cooperative wait and cancellation: Keithley2400_Procedure.wait_for (C8) -/

/-- Outcome of one cooperative wait: the wait either runs to the end of its
duration, or a poll slice observes the stop signal, in which case
`Keithley2400_Procedure.wait_for` (keithley2400_procedure.py, lines 171-189)
calls shutdown and raises RuntimeError, terminating the run. -/
inductive WaitResult where
  | completed
  | cancelled
deriving DecidableEq

/-- Embedding of the poll loop of wait_for: the input lists the values
should_stop() returns at the successive poll slices of this wait; the first
true observation cancels. -/
def wait_for : List Bool → WaitResult
  | [] => WaitResult.completed
  | s :: rest => if s then WaitResult.cancelled else wait_for rest

/-- Outcome of a measurement loop: the samples measured (in order), whether
the run ended cancelled, and whether shutdown was invoked. -/
structure RunOutcome where
  measured : List ℚ
  cancelled : Bool
  shutdown_invoked : Bool

/-- A measurement loop in the style of Voc_Procedure.execute and
MPPTracking_Procedure._baseline: each tick measures one sample and then
waits cooperatively, the wait observing the given poll-slice stop signals.
A cancelled wait raises out of the loop: the run records shutdown and the
cancelled outcome, and no further tick executes. -/
def run_ticks : List (ℚ × List Bool) → RunOutcome
  | [] => ⟨[], false, false⟩
  | t :: rest =>
    match wait_for t.2 with
    | WaitResult.cancelled => ⟨[t.1], true, true⟩
    | WaitResult.completed =>
      let r := run_ticks rest
      ⟨t.1 :: r.measured, r.cancelled, r.shutdown_invoked⟩

theorem wait_for_no_stop (stops : List Bool) (h : ∀ s ∈ stops, s = false) :
    wait_for stops = WaitResult.completed := by
  induction stops with
  | nil => rfl
  | cons s rest ih =>
    have hs : s = false := h s (List.mem_cons_self s rest)
    rw [wait_for, hs]
    simp only [Bool.false_eq_true, if_false]
    exact ih fun x hx => h x (List.mem_cons_of_mem s hx)

theorem wait_for_stop (stops : List Bool) (h : true ∈ stops) :
    wait_for stops = WaitResult.cancelled := by
  induction stops with
  | nil => cases h
  | cons s rest ih =>
    by_cases hs : s = true
    · rw [wait_for, hs]
      simp
    · have hrest : true ∈ rest := by
        rcases List.mem_cons.mp h with h1 | h1
        · exact absurd h1.symm hs
        · exact h1
      have hsf : s = false := Bool.eq_false_iff.mpr hs
      rw [wait_for, hsf]
      simp only [Bool.false_eq_true, if_false]
      exact ih hrest

/-- Claim C8: if a stop signal is observed during the cooperative wait of
some tick (and no earlier wait observed one), the instrument shutdown is
invoked, the run terminates with the cancelled outcome, and the samples
measured are exactly those up to and including that tick — no tick after
the cancellation executes. -/
theorem wait_for_cancellation (pre post : List (ℚ × List Bool)) (v : ℚ)
    (stops : List Bool)
    (hpre : ∀ p ∈ pre, ∀ s ∈ p.2, s = false)
    (hstop : true ∈ stops) :
    run_ticks (pre ++ (v, stops) :: post) =
      ⟨pre.map Prod.fst ++ [v], true, true⟩ := by
  induction pre with
  | nil =>
    simp only [List.nil_append, List.map_nil]
    rw [run_ticks]
    have hw : wait_for (v, stops).2 = WaitResult.cancelled :=
      wait_for_stop stops hstop
    rw [hw]
  | cons p pre ih =>
    have hp : wait_for p.2 = WaitResult.completed :=
      wait_for_no_stop p.2 (hpre p (List.mem_cons_self p pre))
    have ih2 := ih fun q hq => hpre q (List.mem_cons_of_mem p hq)
    simp only [List.cons_append]
    rw [run_ticks, hp, ih2]
    simp

/-- Witness for C8: a first tick whose wait completes, a second tick whose
wait observes the stop at its second poll slice, and a third tick that the
claim requires never to run: the outcome measures [1, 2] only, cancelled,
with shutdown invoked. -/
theorem wait_for_cancellation_witness :
    run_ticks ([((1 : ℚ), [false])] ++ ((2 : ℚ), [false, true]) :: [((3 : ℚ), [false])]) =
      ⟨[((1 : ℚ), [false])].map Prod.fst ++ [2], true, true⟩ :=
  wait_for_cancellation [((1 : ℚ), [false])] [((3 : ℚ), [false])] 2 [false, true]
    (by simp) (by simp)

end Keithley2400MPP
